import Mathlib

/-!
# Verification of the rover-embassy control plane against its specification

A shallow embedding of the rover's message-passing modules
(`src/control/safety_controller.rs`, `src/state_manager.rs`,
`src/obstacle_avoidance.rs`, `src/planning/goal_planning.rs`,
`src/planning/task_mission_manager.rs`, `src/output/hardware_interface.rs`,
`src/perception/environment_understanding.rs`, `src/infra/logger.rs`,
`src/control/behaviour.rs`) together with theorems settling the
specification's claims about them.

Modelling conventions:
* `f32` / `f64` values are embedded as exact rationals (`ℚ`); decimal
  literals such as `0.5` or `9.81` denote the same exact values that appear
  in the source text.
* Transcendental float intrinsics (`sin`, `cos`, `atan2`, `sqrt`, the
  constant `PI`) have no exact rational counterpart; they are abstracted
  into a `FloatOps` record of rational-valued functions, and the theorems
  about code using them hold for every interpretation of that record.
* `SystemTime` timestamps are opaque to every property considered here and
  are embedded as `Nat` (with `SystemTime::now()` abstracted as `0` where a
  handler stamps a fresh message).
* A module handler is embedded as a pure function from its state and the
  received message to the updated state plus the ordered list of messages
  it emits on its outbound channels (its *effects*); `format!` log strings
  are embedded by their static prefix, with formatted numeric payloads
  either elided or carried as structured fields.
-/

namespace Rover

/-! ## Data model (`src/types.rs`) -/

/-- `[f32; 3]` vector (`position`, `velocity`, acceleration, ...). -/
structure Vec3 where
  x : ℚ
  y : ℚ
  z : ℚ
deriving DecidableEq, Repr

/-- `[f32; 4]` quaternion in `[w, x, y, z]` order, as documented in
`types.rs` (`orientation: [f32; 4], // quaternion [w, x, y, z]`). -/
structure Quat where
  w : ℚ
  x : ℚ
  y : ℚ
  z : ℚ
deriving DecidableEq, Repr

/-- `ImuData` from `types.rs`. -/
structure ImuData where
  acceleration : Vec3
  gyroscope : Vec3
  orientation : Quat
deriving DecidableEq, Repr

/-- `GpsData` from `types.rs`. -/
structure GpsData where
  latitude : ℚ
  longitude : ℚ
  altitude : ℚ
  accuracy : ℚ
deriving DecidableEq, Repr

/-- `SensorData` from `types.rs`. -/
structure SensorData where
  timestamp : Nat
  distance_sensors : List ℚ
  imu : ImuData
  gps : GpsData
  battery_level : ℚ
deriving DecidableEq, Repr

/-- `Waypoint` from `types.rs`. -/
structure Waypoint where
  lat : ℚ
  lon : ℚ
  tolerance : ℚ
deriving DecidableEq, Repr

/-- `ManualControl` from `types.rs`. -/
inductive ManualControl where
  | MoveForward (speed : ℚ)
  | MoveBackward (speed : ℚ)
  | TurnLeft (rate : ℚ)
  | TurnRight (rate : ℚ)
  | Stop
deriving DecidableEq, Repr

/-- `MissionCommand` from `types.rs`. -/
inductive MissionCommand where
  | GoToWaypoint (lat lon : ℚ)
  | FollowPath (waypoints : List Waypoint)
  | Patrol (waypoints : List Waypoint) (loops : Nat)
  | ReturnHome
deriving DecidableEq, Repr

/-- `SystemCommand` from `types.rs`. -/
inductive SystemCommand where
  | Pause
  | Resume
  | EmergencyStop
  | Calibrate
deriving DecidableEq, Repr

/-- `UserCommand` from `types.rs`. -/
inductive UserCommand where
  | ManualControl (mc : ManualControl)
  | MissionCommand (mc : MissionCommand)
  | SystemCommand (sc : SystemCommand)
deriving DecidableEq, Repr

/-- `RobotPose` from `types.rs`. -/
structure RobotPose where
  position : Vec3
  orientation : Quat
  velocity : Vec3
  angular_velocity : Vec3
deriving DecidableEq, Repr

/-- `RobotState` from `types.rs`. -/
inductive RobotState where
  | Idle
  | ManualControl
  | ExecutingMission
  | Paused
  | EmergencyStop
  | Error (reason : String)
deriving DecidableEq, Repr

/-- `StanceType` from `types.rs`. -/
inductive StanceType where
  | Normal
  | LowProfile
  | HighClearance
  | TiltCompensation (angle : ℚ)
deriving DecidableEq, Repr

/-- `StanceConfig` from `types.rs`. -/
structure StanceConfig where
  stance_type : StanceType
  stability : ℚ
deriving DecidableEq, Repr

/-- `Behavior` from `types.rs`. -/
inductive Behavior where
  | Idle
  | MoveTowards (target : Vec3) (speed : ℚ)
  | AvoidObstacle (direction : Vec3)
  | AdjustStance (config : StanceConfig)
  | EmergencyStop
deriving DecidableEq, Repr

/-- `BehaviorCommand` from `types.rs`. -/
structure BehaviorCommand where
  timestamp : Nat
  behavior : Behavior
  priority : Nat
deriving DecidableEq, Repr

/-- `MotorCommand` from `types.rs`. -/
structure MotorCommand where
  left_speed : ℚ
  right_speed : ℚ
deriving DecidableEq, Repr

/-- `LogLevel` from `types.rs`; the Rust `derive(PartialOrd, Ord)` order is
the declaration order `Debug < Info < Warn < Error`. -/
inductive LogLevel where
  | Debug
  | Info
  | Warn
  | Error
deriving DecidableEq, Repr

/-- The rank realizing the derived `Ord` of `LogLevel` (declaration order). -/
def LogLevel.toNat : LogLevel → Nat
  | .Debug => 0
  | .Info => 1
  | .Warn => 2
  | .Error => 3

/-- `LogEntry` from `types.rs`. -/
structure LogEntry where
  timestamp : Nat
  level : LogLevel
  module : String
  message : String
deriving DecidableEq, Repr

/-- `GoalType` from `types.rs`. -/
inductive GoalType where
  | ReachPosition
  | OrientTowards
  | FollowTrajectory
deriving DecidableEq, Repr

/-- `Goal` from `types.rs`. -/
structure Goal where
  target_pose : RobotPose
  goal_type : GoalType
deriving DecidableEq, Repr

/-- `Path` from `types.rs`. -/
structure Path where
  waypoints : List RobotPose
  total_distance : ℚ
  estimated_time : ℚ
deriving DecidableEq, Repr

/-- `TaskStatus` from `types.rs`. -/
inductive TaskStatus where
  | Pending
  | InProgress
  | Completed
  | Failed (reason : String)
deriving DecidableEq, Repr

/-- `TaskType` from `types.rs`. -/
inductive TaskType where
  | Navigate (waypoint : Waypoint)
  | Scan
  | Wait (ms : Nat)
deriving DecidableEq, Repr

/-- `Task` from `types.rs`. -/
structure Task where
  id : Nat
  description : String
  task_type : TaskType
  status : TaskStatus
deriving DecidableEq, Repr

/-- `Mission` from `types.rs`. -/
structure Mission where
  id : Nat
  name : String
  tasks : List Task
  priority : Nat
deriving DecidableEq, Repr

/-- `ObstacleType` from `types.rs`. -/
inductive ObstacleType where
  | Static
  | Dynamic
  | Unknown
deriving DecidableEq, Repr

/-- `Obstacle` from `types.rs`. -/
structure Obstacle where
  position : Vec3
  size : Vec3
  obstacle_type : ObstacleType
deriving DecidableEq, Repr

/-- `TerrainType` from `types.rs`. -/
inductive TerrainType where
  | Flat
  | Rough
  | Steep
  | Unknown
deriving DecidableEq, Repr

/-- `EnvironmentState` from `types.rs`. -/
structure EnvironmentState where
  obstacles : List Obstacle
  terrain_type : TerrainType
  confidence : ℚ
deriving DecidableEq, Repr

/-- Abstract interpretations for the `f32` intrinsics used by the source
(`sin`, `cos`, `y.atan2(x)`, `sqrt`, `std::f32::consts::PI`).  Theorems
about code that calls them are proved for every interpretation. -/
structure FloatOps where
  sin : ℚ → ℚ
  cos : ℚ → ℚ
  atan2 : ℚ → ℚ → ℚ
  sqrt : ℚ → ℚ
  pi : ℚ

/-- A concrete `FloatOps` interpretation, used to evaluate definitions on
concrete inputs in witness theorems. -/
def sampleOps : FloatOps where
  sin := fun q => q
  cos := fun q => 1 - q
  atan2 := fun y x => y - x
  sqrt := fun q => q
  pi := 3.14159265

/-! ## SafetyController (`src/control/safety_controller.rs`) -/

/-- The mutable state of `SafetyController`: the `emergency_stop` latch
(initially `false`) and `latest_sensor_data` (initially `None`). -/
structure SCState where
  emergency_stop : Bool
  latest_sensor_data : Option SensorData
deriving DecidableEq, Repr

/-- The fields `emergency_stop: false, latest_sensor_data: None` set by
`SafetyController::new`. -/
def SCState.initial : SCState :=
  { emergency_stop := false, latest_sensor_data := none }

/-- One emission of `SafetyController`: a record on `log_tx` or a
`BehaviorCommand` on `hardware_interface_tx`. -/
inductive SCEffect where
  | log (level : LogLevel) (message : String)
  | forward (cmd : BehaviorCommand)
deriving DecidableEq, Repr

/-- `true` exactly on the `Behavior::MoveTowards { .. }` variant. -/
def Behavior.isMoveTowards : Behavior → Bool
  | .MoveTowards _ _ => true
  | _ => false

/-- The success tail of `SafetyController::validate_and_execute`: send the
command to the hardware interface, then log the Debug confirmation. -/
def forward_effects (cmd : BehaviorCommand) : List SCEffect :=
  [.forward cmd, .log .Debug "Command validated and forwarded to hardware interface"]

/-- `SafetyController::validate_and_execute` (lines 82-134): emergency
latch check, then (when a sensor frame has been seen) the critical-battery
check, then for `MoveTowards` the front-distance check against the first
reading (`distance_sensors.get(0)`), and otherwise the forward. -/
def validate_and_execute (s : SCState) (cmd : BehaviorCommand) : List SCEffect :=
  if s.emergency_stop then
    [.log .Warn "Command blocked - emergency stop active"]
  else
    match s.latest_sensor_data with
    | some sensor_data =>
      if sensor_data.battery_level < 0.1 then
        [.log .Error "Command blocked - critical battery level"]
      else
        match cmd.behavior.isMoveTowards, sensor_data.distance_sensors.head? with
        | true, some front_distance =>
          if front_distance < 0.5 then
            [.log .Warn "Command blocked - obstacle too close"]
          else
            forward_effects cmd
        | _, _ => forward_effects cmd
    | none => forward_effects cmd

/-- `SafetyController::check_safety` (lines 136-156): Error log when the
battery is critical and a Warn log per distance reading under `0.3`. -/
def check_safety (sensor_data : SensorData) : List SCEffect :=
  (if sensor_data.battery_level < 0.1 then
    [SCEffect.log .Error "Critical battery level"]
  else []) ++
  sensor_data.distance_sensors.filterMap (fun distance =>
    if distance < 0.3 then some (SCEffect.log .Warn "Close obstacle") else none)

/-- The `BehaviorCommand` built by `SafetyController::send_stop_command`
(wall-clock timestamp abstracted as `0`). -/
def emergency_stop_command : BehaviorCommand :=
  { timestamp := 0, behavior := .EmergencyStop, priority := 10 }

/-- `matches!(state, RobotState::EmergencyStop)`. -/
def RobotState.isEmergencyStop : RobotState → Bool
  | .EmergencyStop => true
  | _ => false

/-- One message received by the `SafetyController::run` select loop. -/
inductive SCInput where
  | behavior (cmd : BehaviorCommand)
  | sensor (sensor_data : SensorData)
  | state (st : RobotState)
deriving DecidableEq, Repr

/-- One iteration of the `SafetyController::run` select loop (lines 44-72):
a behavior command is validated, a sensor frame updates
`latest_sensor_data` and is safety-checked, and a `RobotState` message sets
the latch, logs, and emits the stop command exactly when it is
`EmergencyStop` — no branch of the loop ever clears the latch. -/
def sc_step (s : SCState) : SCInput → SCState × List SCEffect
  | .behavior cmd => (s, validate_and_execute s cmd)
  | .sensor sensor_data =>
    ({ s with latest_sensor_data := some sensor_data }, check_safety sensor_data)
  | .state st =>
    if st.isEmergencyStop then
      ({ s with emergency_stop := true },
       [.log .Error "EMERGENCY STOP ACTIVATED", .forward emergency_stop_command])
    else (s, [])

/-- Running the `SafetyController` loop over a finite input sequence,
collecting all emissions in order. -/
def sc_run (s : SCState) : List SCInput → SCState × List SCEffect
  | [] => (s, [])
  | i :: rest =>
    let step := sc_step s i
    let tail := sc_run step.1 rest
    (tail.1, step.2 ++ tail.2)

/-- Spec-side reading of validation rule 2: `lastSensor` is present and its
battery is under `0.10`. -/
def rule_battery (s : SCState) : Bool :=
  match s.latest_sensor_data with
  | some sensor_data => sensor_data.battery_level < 0.1
  | none => false

/-- Spec-side reading of validation rule 3: the behavior is `MoveTowards`,
`lastSensor` is present, and its front reading (`distanceSensors[0]`, when
it exists) is under `0.50`. -/
def rule_front_obstacle (s : SCState) (cmd : BehaviorCommand) : Bool :=
  cmd.behavior.isMoveTowards &&
    match s.latest_sensor_data with
    | some sensor_data =>
      match sensor_data.distance_sensors.head? with
      | some front_distance => front_distance < 0.5
      | none => false
    | none => false

/-- Spec-side validator, written from the claim's words: the rules are
applied in order and the first failing rule rejects — (1) latched ⇒ Warn
reject; (2) critical battery ⇒ Error reject; (3) `MoveTowards` into a
front obstacle ⇒ Warn reject; (4) otherwise the command is forwarded
unchanged. -/
def validate_spec (s : SCState) (cmd : BehaviorCommand) : List SCEffect :=
  if s.emergency_stop then
    [.log .Warn "Command blocked - emergency stop active"]
  else if rule_battery s then
    [.log .Error "Command blocked - critical battery level"]
  else if rule_front_obstacle s cmd then
    [.log .Warn "Command blocked - obstacle too close"]
  else
    forward_effects cmd

/-! ## StateManager (`src/state_manager.rs`) -/

/-- One emission of `StateManager::handle_command`: a log record or the
announcement of the new state on one of the three subscriber channels
(`state_tx`, `safety_state_tx`, `task_manager_state_tx`). -/
inductive SMEffect where
  | log (level : LogLevel) (message : String)
  | announce_state (st : RobotState)
  | announce_safety (st : RobotState)
  | announce_task (st : RobotState)
deriving DecidableEq, Repr

/-- The `match command` in `StateManager::handle_command` (lines 85-100)
computing `new_state` from the received `UserCommand`. -/
def target_state : UserCommand → RobotState
  | .ManualControl _ => .ManualControl
  | .MissionCommand _ => .ExecutingMission
  | .SystemCommand .Pause => .Paused
  | .SystemCommand .Resume => .ExecutingMission
  | .SystemCommand .EmergencyStop => .EmergencyStop
  | .SystemCommand .Calibrate => .Idle

/-- `std::mem::discriminant` equality on `RobotState`: same variant,
payloads ignored. -/
def same_variant : RobotState → RobotState → Bool
  | .Idle, .Idle => true
  | .ManualControl, .ManualControl => true
  | .ExecutingMission, .ExecutingMission => true
  | .Paused, .Paused => true
  | .EmergencyStop, .EmergencyStop => true
  | .Error _, .Error _ => true
  | _, _ => false

/-- `StateManager::handle_command` (lines 84-116): compute the new state;
if its discriminant equals the current one, do nothing; otherwise log the
transition, adopt the new state, and announce it to the three
subscribers. -/
def handle_command (s : RobotState) (command : UserCommand) :
    RobotState × List SMEffect :=
  let new_state := target_state command
  if same_variant s new_state then (s, [])
  else
    (new_state,
     [.log .Info "State transition",
      .announce_state new_state,
      .announce_safety new_state,
      .announce_task new_state])

/-- The number of mode-change announcements in an effect list, counting one
per announcement of the new state on the general state bus (each
announcement also reaches the two other subscribers). -/
def mode_change_announcements (effects : List SMEffect) : Nat :=
  effects.countP (fun e =>
    match e with
    | .announce_state _ => true
    | _ => false)

/-- Spec-side command-to-mode mapping, written from the claim's words:
`ManualControl(*) ↦ ManualControl`; `MissionCommand(*)` or
`SystemCommand::Resume ↦ ExecutingMission`; `Pause ↦ Paused`;
`EmergencyStop ↦ EmergencyStop`; `Calibrate ↦ Idle`. -/
def target_state_spec (command : UserCommand) : RobotState :=
  match command with
  | .ManualControl _ => .ManualControl
  | .MissionCommand _ => .ExecutingMission
  | .SystemCommand sc =>
    match sc with
    | .Resume => .ExecutingMission
    | .Pause => .Paused
    | .EmergencyStop => .EmergencyStop
    | .Calibrate => .Idle

/-- `true` exactly on the `RobotState::Error(_)` variant. -/
def RobotState.isError : RobotState → Bool
  | .Error _ => true
  | _ => false

/-- The `current_state` reached by processing a finite sequence of
`UserCommand`s through `StateManager::handle_command`. -/
def run_commands (s : RobotState) (commands : List UserCommand) : RobotState :=
  commands.foldl (fun st c => (handle_command st c).1) s

/-! ## ObstacleAvoidance (`src/obstacle_avoidance.rs`) and
GoalPlanning (`src/planning/goal_planning.rs`) -/

/-- `PathRequest` from `goal_planning.rs`. -/
inductive PathRequest where
  | Plan (start goal : RobotPose)
deriving DecidableEq, Repr

/-- One emission of `ObstacleAvoidance::validate_path`: a log record, the
fire-and-forget stance query, or a `Path` on one of the two outbound
channels (`goal_path_tx` back to GoalPlanning, `behavior_tx` directly to
Behaviour). -/
inductive OAEffect where
  | log (level : LogLevel) (message : String)
  | stance_query
  | to_goal_planning (p : Path)
  | to_behaviour (p : Path)
deriving DecidableEq, Repr

/-- One waypoint of the loop body in `ObstacleAvoidance::validate_path`
(lines 98-113): position interpolated at `t = i/4`, orientation copied
from `start`, velocity `(0.5, 0, 0)`, zero angular velocity. -/
def interpolated_waypoint (start goal : RobotPose) (i : Nat) : RobotPose :=
  let t : ℚ := (i : ℚ) / 4
  { position :=
      { x := start.position.x + t * (goal.position.x - start.position.x)
        y := start.position.y + t * (goal.position.y - start.position.y)
        z := start.position.z + t * (goal.position.z - start.position.z) }
    orientation := start.orientation
    velocity := { x := 0.5, y := 0, z := 0 }
    angular_velocity := { x := 0, y := 0, z := 0 } }

/-- The `Path` built by `ObstacleAvoidance::validate_path` (lines 98-119):
the five waypoints pushed by the `for i in 0..5` loop, stamped with
`total_distance: 5.0` and `estimated_time: 10.0`. -/
def plan_path (start goal : RobotPose) : Path :=
  { waypoints := (List.range 5).map (interpolated_waypoint start goal)
    total_distance := 5.0
    estimated_time := 10.0 }

/-- `ObstacleAvoidance::validate_path` (lines 85-128): log, query stance,
build the interpolated path, send it back to GoalPlanning, then send the
same path directly to Behaviour. -/
def validate_path (request : PathRequest) : List OAEffect :=
  match request with
  | .Plan start goal =>
    [.log .Info "Validating and adjusting path for obstacles",
     .stance_query,
     .to_goal_planning (plan_path start goal),
     .to_behaviour (plan_path start goal)]

/-- One emission of the GoalPlanning select loop. -/
inductive GPEffect where
  | log (level : LogLevel) (message : String)
  | stance_query
  | to_obstacle (request : PathRequest)
  | to_behaviour (p : Path)
deriving DecidableEq, Repr

/-- The `Some(path) = self.obstacle_rx.recv()` arm of `GoalPlanning::run`
(lines 65-73): log the received path and re-emit it once to Behaviour. -/
def gp_on_path (path : Path) : List GPEffect :=
  [.log .Info "Received safe path", .to_behaviour path]

/-- Spec-side path, written from the claim's words: the 5 points linearly
interpolated from `start.position` to `goal.position` at parameters
`t = 0, 1/4, 1/2, 3/4, 1`, each with orientation copied from `start`,
velocity `(0.5, 0, 0)` and zero angular velocity, with
`total_distance = 5.0` and `estimated_time = 10.0`. -/
def path_spec (start goal : RobotPose) : Path :=
  { waypoints :=
      [(0 : ℚ), 1/4, 1/2, 3/4, 1].map (fun t =>
        { position :=
            { x := start.position.x + t * (goal.position.x - start.position.x)
              y := start.position.y + t * (goal.position.y - start.position.y)
              z := start.position.z + t * (goal.position.z - start.position.z) }
          orientation := start.orientation
          velocity := { x := 0.5, y := 0, z := 0 }
          angular_velocity := { x := 0, y := 0, z := 0 } })
    total_distance := 5.0
    estimated_time := 10.0 }

/-! ## HardwareInterface (`src/output/hardware_interface.rs`)

The module's outbound channels are `sensor_tx` (to InputManager),
`status_tx` (hardware status) and `log_tx` — it has **no** channel carrying
a `MotorCommand`; the motor commands computed in
`handle_behavior_command` appear only inside Debug log records. -/

/-- `HardwareStatus` from `types.rs`. -/
structure HardwareStatus where
  timestamp : Nat
  battery_voltage : ℚ
  motor_temps : List ℚ
  health_is_warning : Bool
deriving DecidableEq, Repr

/-- One emission of `HardwareInterface`: a plain log record, a Debug log
record whose message embeds the formatted `left/right` speeds of a
computed `MotorCommand` (carried here as a structured field), a forwarded
sensor frame, or a hardware status. -/
inductive HWEffect where
  | log (level : LogLevel) (message : String)
  | log_motor (message : String) (motor_cmd : MotorCommand)
  | to_input_manager (sensor_data : SensorData)
  | to_status (status : HardwareStatus)
deriving DecidableEq, Repr

/-- `HardwareInterface::calculate_motor_command` (lines 151-160):
`angle_to_target = target[1].atan2(target[0])`, `turn_factor = sin(angle)`,
`left = speed * (1.0 - turn_factor * 0.5)`,
`right = speed * (1.0 + turn_factor * 0.5)`. -/
def calculate_motor_command (ops : FloatOps) (target : Vec3) (speed : ℚ) :
    MotorCommand :=
  let angle_to_target := ops.atan2 target.y target.x
  let turn_factor := ops.sin angle_to_target
  { left_speed := speed * (1 - turn_factor * 0.5)
    right_speed := speed * (1 + turn_factor * 0.5) }

/-- The `MotorCommand` value constructed (if any) by the corresponding
branch of `HardwareInterface::handle_behavior_command` (lines 107-149):
`MoveTowards` computes `calculate_motor_command`, `AvoidObstacle` builds
`left = direction[1] * 0.5, right = -direction[1] * 0.5`, and the
`EmergencyStop`, `AdjustStance` and `Idle` branches construct none. -/
def computed_motor_command (ops : FloatOps) : Behavior → Option MotorCommand
  | .MoveTowards target speed => some (calculate_motor_command ops target speed)
  | .AvoidObstacle direction =>
    some { left_speed := direction.y * 0.5, right_speed := -direction.y * 0.5 }
  | .EmergencyStop => none
  | .AdjustStance _ => none
  | .Idle => none

/-- `HardwareInterface::handle_behavior_command` (lines 107-149): every
branch only logs (the `MoveTowards` and `AvoidObstacle` Debug messages
embedding the computed motor speeds); nothing is emitted on any other
channel and no branch sends a `MotorCommand` anywhere. -/
def handle_behavior_command (ops : FloatOps) (cmd : BehaviorCommand) :
    List HWEffect :=
  match cmd.behavior with
  | .MoveTowards target speed =>
    [.log_motor "Executing MoveTowards" (calculate_motor_command ops target speed)]
  | .AvoidObstacle direction =>
    [.log_motor "Executing AvoidObstacle"
      { left_speed := direction.y * 0.5, right_speed := -direction.y * 0.5 }]
  | .EmergencyStop => [.log .Warn "Emergency stop executed"]
  | .AdjustStance _ => [.log .Debug "Stance adjustment received"]
  | .Idle => []

/-- `true` on the two log effect forms of `HWEffect`. -/
def HWEffect.isLog : HWEffect → Bool
  | .log _ _ => true
  | .log_motor _ _ => true
  | _ => false

/-! ## TaskMissionManager (`src/planning/task_mission_manager.rs`) -/

/-- `TaskMissionManager::create_mission_from_command` (lines 85-147):
increment the process-local counter, build the name and task list for the
command, and return the mission with `id = counter`, `priority: 5` (the
formatted latitude/longitude and counts inside the name strings are
elided; task descriptions keep their formatted index). -/
def create_mission_from_command (counter : Nat) (cmd : MissionCommand) :
    Nat × Mission :=
  let new_counter := counter + 1
  let named_tasks : String × List Task :=
    match cmd with
    | .GoToWaypoint lat lon =>
      ("GoTo",
       [{ id := 1, description := "Navigate to waypoint",
          task_type := .Navigate { lat := lat, lon := lon, tolerance := 2.0 },
          status := .Pending }])
    | .Patrol waypoints _loops =>
      ("Patrol",
       waypoints.enum.map (fun p =>
         { id := p.1 + 1, description := "Waypoint " ++ toString (p.1 + 1),
           task_type := .Navigate p.2, status := .Pending }))
    | .FollowPath waypoints =>
      ("Follow path",
       waypoints.enum.map (fun p =>
         { id := p.1 + 1, description := "Path point " ++ toString (p.1 + 1),
           task_type := .Navigate p.2, status := .Pending }))
    | .ReturnHome =>
      ("Return Home",
       [{ id := 1, description := "Navigate home",
          task_type := .Navigate { lat := 37.7749, lon := -122.4194, tolerance := 1.0 },
          status := .Pending }])
  (new_counter,
   { id := new_counter, name := named_tasks.1, tasks := named_tasks.2, priority := 5 })

/-- `TaskMissionManager::task_to_goal` (lines 156-181): a `Navigate` task
becomes a goal whose target position packs `(lat, lon, 0)` unchanged into
the metric fields, with identity orientation and `ReachPosition` type;
all other task kinds map to the origin goal. -/
def task_to_goal (task : Task) : Goal :=
  match task.task_type with
  | .Navigate waypoint =>
    { target_pose :=
        { position := { x := waypoint.lat, y := waypoint.lon, z := 0 }
          orientation := { w := 1, x := 0, y := 0, z := 0 }
          velocity := { x := 0, y := 0, z := 0 }
          angular_velocity := { x := 0, y := 0, z := 0 } }
      goal_type := .ReachPosition }
  | _ =>
    { target_pose :=
        { position := { x := 0, y := 0, z := 0 }
          orientation := { w := 1, x := 0, y := 0, z := 0 }
          velocity := { x := 0, y := 0, z := 0 }
          angular_velocity := { x := 0, y := 0, z := 0 } }
      goal_type := .ReachPosition }

/-- `TaskMissionManager::execute_mission` (lines 149-154): after creation
every task is emitted as one goal on `goal_tx`, in task order. -/
def execute_mission (mission : Mission) : List Goal :=
  mission.tasks.map task_to_goal

/-- Processing a sequence of `MissionCommand`s through the mission counter,
collecting the created missions in order. -/
def process_mission_commands (counter : Nat) :
    List MissionCommand → Nat × List Mission
  | [] => (counter, [])
  | c :: rest =>
    let created := create_mission_from_command counter c
    let tail := process_mission_commands created.1 rest
    (tail.1, created.2 :: tail.2)

/-- Spec-side task list, written from the claim's words: `Patrol` and
`FollowPath` yield one `Navigate` task per waypoint, `GoToWaypoint` yields
exactly one, and `ReturnHome` yields one `Navigate` to
`(37.7749, -122.4194)` with tolerance `1.0`. -/
def mission_task_types_spec : MissionCommand → List TaskType
  | .GoToWaypoint lat lon => [.Navigate { lat := lat, lon := lon, tolerance := 2.0 }]
  | .Patrol waypoints _ => waypoints.map .Navigate
  | .FollowPath waypoints => waypoints.map .Navigate
  | .ReturnHome => [.Navigate { lat := 37.7749, lon := -122.4194, tolerance := 1.0 }]

/-- Spec-side goal for a `Navigate` task, written from the claim's words:
`target_pose.position = (lat, lon, 0)`, identity orientation, goal type
`ReachPosition`. -/
def navigate_goal_spec (waypoint : Waypoint) : Goal :=
  { target_pose :=
      { position := { x := waypoint.lat, y := waypoint.lon, z := 0 }
        orientation := { w := 1, x := 0, y := 0, z := 0 }
        velocity := { x := 0, y := 0, z := 0 }
        angular_velocity := { x := 0, y := 0, z := 0 } }
    goal_type := .ReachPosition }

/-! ## EnvironmentUnderstanding (`src/perception/environment_understanding.rs`) -/

/-- The `Obstacle` pushed by the loop body of
`EnvironmentUnderstanding::process_sensor_data` (lines 71-84) for reading
index `i` and value `distance`: `angle = i * PI / 2`, position
`(distance * cos(angle), distance * sin(angle), 0)`, size
`(0.3, 0.3, 0.5)`, type `Static`. -/
def obstacle_from_reading (ops : FloatOps) (i : Nat) (distance : ℚ) : Obstacle :=
  let angle := (i : ℚ) * ops.pi / 2
  { position := { x := distance * ops.cos angle, y := distance * ops.sin angle, z := 0 }
    size := { x := 0.3, y := 0.3, z := 0.5 }
    obstacle_type := .Static }

/-- `EnvironmentUnderstanding::process_sensor_data` (lines 67-106): one
obstacle per distance reading strictly under `1.5`; terrain `Rough` when
`|sqrt(ax^2 + ay^2 + az^2) - 9.81| > 2.0`, else `Steep` when
`|orientation[1]| > 0.2` (index 1 of the `[w, x, y, z]` quaternion, i.e.
its x component), else `Flat`; confidence `0.8`. -/
def process_sensor_data (ops : FloatOps) (sensor_data : SensorData) :
    EnvironmentState :=
  let obstacles := sensor_data.distance_sensors.enum.filterMap (fun p =>
    if p.2 < 1.5 then some (obstacle_from_reading ops p.1 p.2) else none)
  let accel_magnitude := ops.sqrt
    (sensor_data.imu.acceleration.x ^ 2 + sensor_data.imu.acceleration.y ^ 2 +
     sensor_data.imu.acceleration.z ^ 2)
  let terrain_type :=
    if |accel_magnitude - 9.81| > 2.0 then TerrainType.Rough
    else if |sensor_data.imu.orientation.x| > 0.2 then TerrainType.Steep
    else TerrainType.Flat
  { obstacles := obstacles, terrain_type := terrain_type, confidence := 0.8 }

/-- Spec-side environment state, written from the claim's words: exactly
one obstacle per reading strictly under `1.5`, placed at polar coordinates
`(d, i*π/2)` — position `(d·cos(i·π/2), d·sin(i·π/2), 0)` — with size
`(0.3, 0.3, 0.5)` and type `Static`; terrain `Rough` if
`|‖accel‖ - 9.81| > 2.0`, else `Steep` if the quaternion's x component
exceeds `0.2` in absolute value, else `Flat`; confidence always `0.8`. -/
def environment_spec (ops : FloatOps) (sensor_data : SensorData) :
    EnvironmentState :=
  { obstacles :=
      (sensor_data.distance_sensors.enum.filter (fun p => p.2 < 1.5)).map
        (fun p =>
          { position := { x := p.2 * ops.cos ((p.1 : ℚ) * ops.pi / 2)
                          y := p.2 * ops.sin ((p.1 : ℚ) * ops.pi / 2)
                          z := 0 }
            size := { x := 0.3, y := 0.3, z := 0.5 }
            obstacle_type := .Static })
    terrain_type :=
      if |ops.sqrt (sensor_data.imu.acceleration.x ^ 2 +
            sensor_data.imu.acceleration.y ^ 2 +
            sensor_data.imu.acceleration.z ^ 2) - 9.81| > 2.0 then .Rough
      else if |sensor_data.imu.orientation.x| > 0.2 then .Steep
      else .Flat
    confidence := 0.8 }

/-! ## Logger (`src/infra/logger.rs`) -/

/-- The sink-relevant state of `Logger`: the configured minimum level, the
availability of the two optional sinks (`foxglove_context.is_some()`,
`mcap_writer.is_some()`), the lazily-created per-module channel caches
(`ws_channels`, `module_channels`) and `message_count`. -/
structure LoggerState where
  min_level : LogLevel
  ws_enabled : Bool
  file_enabled : Bool
  ws_channels : List String
  mcap_channels : List String
  message_count : Nat
deriving DecidableEq, Repr

/-- One piece of sink work performed by `Logger::log_entry`: creating or
publishing on a live-stream (WebSocket) channel, or creating or writing on
a durable-file (MCAP) channel. -/
inductive LogSinkEffect where
  | ws_channel_create (topic : String)
  | ws_publish (module : String)
  | mcap_channel_create (topic : String)
  | mcap_write (module : String)
deriving DecidableEq, Repr

/-- `true` on live-stream sink work. -/
def LogSinkEffect.isWs : LogSinkEffect → Bool
  | .ws_channel_create _ => true
  | .ws_publish _ => true
  | _ => false

/-- `true` on durable-file sink work. -/
def LogSinkEffect.isMcap : LogSinkEffect → Bool
  | .mcap_channel_create _ => true
  | .mcap_write _ => true
  | _ => false

/-- The live-stream half of `Logger::log_entry` (lines 198-233): when the
stream sink is up, lazily create the module's channel on topic
`roverOS/<module>` if it is not cached, then publish the record. -/
def ws_sink (st : LoggerState) (entry : LogEntry) :
    List LogSinkEffect × List String :=
  if st.ws_enabled then
    if st.ws_channels.contains entry.module then
      ([.ws_publish entry.module], st.ws_channels)
    else
      ([.ws_channel_create ("roverOS/" ++ entry.module), .ws_publish entry.module],
       entry.module :: st.ws_channels)
  else ([], st.ws_channels)

/-- The durable-file half of `Logger::log_entry` (lines 235-273): when the
file sink is up, lazily create the module's channel on topic
`roverOS/<module>` if it is not cached, then write the record. -/
def mcap_sink (st : LoggerState) (entry : LogEntry) :
    List LogSinkEffect × List String :=
  if st.file_enabled then
    if st.mcap_channels.contains entry.module then
      ([.mcap_write entry.module], st.mcap_channels)
    else
      ([.mcap_channel_create ("roverOS/" ++ entry.module), .mcap_write entry.module],
       entry.module :: st.mcap_channels)
  else ([], st.mcap_channels)

/-- `Logger::log_entry` (lines 170-276): publish to the live stream first
("before MCAP to ensure real-time delivery"), then write to the durable
file, then increment `message_count`. -/
def log_entry (st : LoggerState) (entry : LogEntry) :
    LoggerState × List LogSinkEffect :=
  let ws := ws_sink st entry
  let mcap := mcap_sink st entry
  ({ st with
      ws_channels := ws.2
      mcap_channels := mcap.2
      message_count := st.message_count + 1 },
   ws.1 ++ mcap.1)

/-- The record-handling arm of the `Logger::run` select loop (lines
138-142): `if entry.level >= self.min_level` guards `log_entry` — records
under the minimum level are dropped before any sink work. -/
def logger_step (st : LoggerState) (entry : LogEntry) :
    LoggerState × List LogSinkEffect :=
  if st.min_level.toNat ≤ entry.level.toNat then log_entry st entry
  else (st, [])

/-- The `min_level` configured by `Logger::new`: `LogLevel::Debug`. -/
def logger_initial_min_level : LogLevel := .Debug

/-! ## Behaviour (`src/control/behaviour.rs`) -/

/-- One emission of `BehaviourModule`: a log record or a `BehaviorCommand`
on `safety_controller_tx`. -/
inductive BEffect where
  | log (level : LogLevel) (message : String)
  | to_safety (cmd : BehaviorCommand)
deriving DecidableEq, Repr

/-- `BehaviourModule::execute_path` (lines 70-95): log the path, then — via
the total `Option` lookup `path.waypoints.first()`, not a panicking index —
emit one `MoveTowards` toward the first waypoint's position at speed `0.5`
and priority `5` when the path is non-empty, and nothing otherwise
(`now` abstracts the `SystemTime::now()` stamp). -/
def execute_path (now : Nat) (path : Path) (path_origin : String) :
    List BEffect :=
  BEffect.log .Info ("Executing path from " ++ path_origin) ::
    (match path.waypoints.head? with
     | some first_waypoint =>
       [.to_safety
         { timestamp := now
           behavior := .MoveTowards first_waypoint.position 0.5
           priority := 5 }]
     | none => [])

/-- The behavior commands contained in a Behaviour emission list. -/
def behavior_commands (effects : List BEffect) : List BehaviorCommand :=
  effects.filterMap (fun e =>
    match e with
    | .to_safety cmd => some cmd
    | _ => none)

/-! ## Helper lemmas -/

/-- Discriminant equality is reflexive. -/
theorem same_variant_self (st : RobotState) : same_variant st st = true := by
  cases st <;> rfl

/-- `target_state` never produces the `Error` variant. -/
theorem target_state_not_error (c : UserCommand) :
    (target_state c).isError = false := by
  cases c with
  | ManualControl _ => rfl
  | MissionCommand _ => rfl
  | SystemCommand sc => cases sc <;> rfl

/-- One `handle_command` step preserves freedom from the `Error` variant. -/
theorem handle_command_not_error (s : RobotState) (c : UserCommand)
    (h : s.isError = false) : ((handle_command s c).1).isError = false := by
  unfold handle_command
  by_cases hv : same_variant s (target_state c) = true
  · simpa [hv] using h
  · simp only [hv]
    simpa using target_state_not_error c

/-- `run_commands` preserves freedom from the `Error` variant. -/
theorem run_commands_not_error (commands : List UserCommand) :
    ∀ s : RobotState, s.isError = false →
      (run_commands s commands).isError = false := by
  induction commands with
  | nil => intro s h; simpa [run_commands] using h
  | cons c rest ih =>
    intro s h
    have hstep := handle_command_not_error s c h
    simpa [run_commands] using ih _ hstep

/-- Repeating the same command leaves the second step silent: after one
`handle_command` on `c`, the state's variant already equals
`target_state c`. -/
theorem second_step_silent (s : RobotState) (c : UserCommand) :
    (handle_command (handle_command s c).1 c).2 = [] := by
  unfold handle_command
  by_cases hv : same_variant s (target_state c) = true
  · simp [hv]
  · simp [hv, same_variant_self]

/-- The conditional `filterMap` in `process_sensor_data` is the
filter-then-map of the claim's wording. -/
theorem obstacle_filterMap_eq (ops : FloatOps) :
    ∀ l : List (Nat × ℚ),
      (l.filterMap fun p =>
        if p.2 < 1.5 then some (obstacle_from_reading ops p.1 p.2) else none) =
      (l.filter fun p => p.2 < 1.5).map fun p =>
        obstacle_from_reading ops p.1 p.2
  | [] => rfl
  | a :: l => by
    by_cases h : a.2 < 1.5 <;>
      simp [List.filterMap_cons, List.filter_cons, h, obstacle_filterMap_eq ops l]

/-- Mapping a function of the value only over an enumerated list forgets
the indices. -/
theorem enumFrom_map_snd_comp {α β : Type} (f : α → β) :
    ∀ (n : Nat) (l : List α), (l.enumFrom n).map (fun p => f p.2) = l.map f
  | _, [] => rfl
  | n, a :: l => by
    simp [List.enumFrom_cons, enumFrom_map_snd_comp f (n + 1) l]

/-- The ids of missions created from a command list count up from the
starting counter plus one. -/
theorem process_mission_commands_ids (commands : List MissionCommand) :
    ∀ counter : Nat,
      (process_mission_commands counter commands).2.map Mission.id =
        List.range' (counter + 1) commands.length := by
  induction commands with
  | nil => intro counter; rfl
  | cons c rest ih =>
    intro counter
    have hid : (create_mission_from_command counter c).2.id = counter + 1 := by
      cases c <;> rfl
    have hcnt : (create_mission_from_command counter c).1 = counter + 1 := by
      cases c <;> rfl
    simp only [process_mission_commands, List.map_cons, hid, hcnt, ih,
      List.length_cons, List.range'_succ]

/-! ## Claim theorems -/

/-- Claim C1 (code bug witnessed on the embedded code): after the
`SafetyController` observes `RobotMode::EmergencyStop` and then a mode
other than `EmergencyStop` (`ExecutingMission`, the result of `Resume`),
any `BehaviorCommand` validated afterwards is *still* rejected with the
"emergency stop active" reason and is not forwarded — the run loop has no
branch clearing the latch, contradicting the specification's latch-clearing
sentences. -/
theorem claim_C1 (cmd : BehaviorCommand) :
    (sc_run SCState.initial
      [.state .EmergencyStop, .state .ExecutingMission, .behavior cmd]).2 =
    [.log .Error "EMERGENCY STOP ACTIVATED",
     .forward emergency_stop_command,
     .log .Warn "Command blocked - emergency stop active"] := by
  rfl

/-- Claim C2: `validate_and_execute` applies the four rules in order with
the first failing rule rejecting — latch, critical battery, front obstacle
for `MoveTowards`, otherwise forward — and a command is forwarded
(unchanged, being sent wholesale) exactly when no rule fails; in
particular a rejected command is never forwarded. -/
theorem claim_C2 (s : SCState) (cmd : BehaviorCommand) :
    validate_and_execute s cmd = validate_spec s cmd ∧
    (SCEffect.forward cmd ∈ validate_and_execute s cmd ↔
      s.emergency_stop = false ∧ rule_battery s = false ∧
        rule_front_obstacle s cmd = false) := by
  obtain ⟨es, lsd⟩ := s
  cases es with
  | true =>
    constructor
    · rfl
    · simp [validate_and_execute]
  | false =>
    cases lsd with
    | none =>
      constructor
      · simp [validate_and_execute, validate_spec, rule_battery,
          rule_front_obstacle, forward_effects]
      · simp [validate_and_execute, rule_battery, rule_front_obstacle,
          forward_effects]
    | some sensor_data =>
      by_cases hb : sensor_data.battery_level < 0.1
      · constructor
        · simp [validate_and_execute, validate_spec, rule_battery, hb]
        · simp [validate_and_execute, rule_battery, hb]
      · cases hm : cmd.behavior.isMoveTowards with
        | false =>
          cases hd : sensor_data.distance_sensors.head? with
          | none =>
            constructor
            · simp [validate_and_execute, validate_spec, rule_battery,
                rule_front_obstacle, hb, hm, hd]
            · simp [validate_and_execute, rule_battery, rule_front_obstacle,
                hb, hm, hd, forward_effects]
          | some front_distance =>
            constructor
            · simp [validate_and_execute, validate_spec, rule_battery,
                rule_front_obstacle, hb, hm, hd]
            · simp [validate_and_execute, rule_battery, rule_front_obstacle,
                hb, hm, hd, forward_effects]
        | true =>
          cases hd : sensor_data.distance_sensors.head? with
          | none =>
            constructor
            · simp [validate_and_execute, validate_spec, rule_battery,
                rule_front_obstacle, hb, hm, hd]
            · simp [validate_and_execute, rule_battery, rule_front_obstacle,
                hb, hm, hd, forward_effects]
          | some front_distance =>
            by_cases hf : front_distance < 0.5
            · constructor
              · simp [validate_and_execute, validate_spec, rule_battery,
                  rule_front_obstacle, hb, hm, hd, hf]
              · simp [validate_and_execute, rule_battery, rule_front_obstacle,
                  hb, hm, hd, hf]
            · constructor
              · simp [validate_and_execute, validate_spec, rule_battery,
                  rule_front_obstacle, hb, hm, hd, hf]
              · simp [validate_and_execute, rule_battery, rule_front_obstacle,
                  hb, hm, hd, hf, forward_effects]

/-- Claim C3: `handle_command` realizes the claimed command-to-mode
mapping, announces a transition (to the three subscribers) exactly when
the new state's variant differs from the current one, and processing the
same `SystemCommand` twice in a row produces at most one mode-change
announcement. -/
theorem claim_C3 (s : RobotState) (c : UserCommand) (sc : SystemCommand) :
    target_state c = target_state_spec c ∧
    mode_change_announcements (handle_command s c).2 =
      (if same_variant s (target_state c) then 0 else 1) ∧
    mode_change_announcements (handle_command s (.SystemCommand sc)).2 +
      mode_change_announcements
        (handle_command (handle_command s (.SystemCommand sc)).1
          (.SystemCommand sc)).2 ≤ 1 := by
  refine ⟨?_, ?_, ?_⟩
  · cases c with
    | ManualControl _ => rfl
    | MissionCommand _ => rfl
    | SystemCommand sc2 => cases sc2 <;> rfl
  · unfold handle_command
    by_cases hv : same_variant s (target_state c) = true <;>
      simp [hv, mode_change_announcements]
  · rw [second_step_silent s (.SystemCommand sc)]
    unfold handle_command
    by_cases hv :
        same_variant s (target_state (.SystemCommand sc)) = true <;>
      simp [hv, mode_change_announcements]

/-- Claim C9: the `Error` mode is unreachable from commands — every finite
sequence of `UserCommand`s processed from the initial `Idle` state leaves
`current_state` outside the `Error` variant. -/
theorem claim_C9 (commands : List UserCommand) :
    (run_commands RobotState.Idle commands).isError = false :=
  run_commands_not_error commands RobotState.Idle rfl

/-- The source's `for i in 0..5` interpolation loop builds exactly the
spec's five points at parameters `t = 0, 1/4, 1/2, 3/4, 1`. -/
theorem plan_path_eq_path_spec (start goal : RobotPose) :
    plan_path start goal = path_spec start goal := by
  unfold plan_path path_spec interpolated_waypoint
  norm_num [List.range_succ]

/-- Claim C4: every `PathRequest::Plan` makes `ObstacleAvoidance` emit the
claimed 5-waypoint linearly-interpolated path (orientation copied from
start, velocity `(0.5, 0, 0)`, zero angular velocity, total distance `5.0`,
estimated time `10.0`) exactly twice — once to GoalPlanning, which
re-emits it once to Behaviour, and once directly to Behaviour — and every
emitted path has at least one waypoint. -/
theorem claim_C4 (start goal : RobotPose) :
    validate_path (.Plan start goal) =
      [.log .Info "Validating and adjusting path for obstacles",
       .stance_query,
       .to_goal_planning (path_spec start goal),
       .to_behaviour (path_spec start goal)] ∧
    (plan_path start goal).waypoints.length = 5 ∧
    1 ≤ (plan_path start goal).waypoints.length ∧
    gp_on_path (plan_path start goal) =
      [.log .Info "Received safe path",
       .to_behaviour (plan_path start goal)] := by
  refine ⟨?_, rfl, by norm_num [plan_path], rfl⟩
  simp [validate_path, plan_path_eq_path_spec]

/-- Claim C5 (counterexample): the claim fails on the code at the concrete
inputs below — the `EmergencyStop` branch of `handle_behavior_command`
constructs no `MotorCommand` at all (rather than a zero one), and handling
a concrete `MoveTowards` emits only a Debug log record embedding the
computed speeds: the module has no output channel carrying a
`MotorCommand`, so no motor command reaches a motor driver. -/
theorem claim_C5_counterexample :
    computed_motor_command sampleOps Behavior.EmergencyStop ≠
      some { left_speed := 0, right_speed := 0 } ∧
    handle_behavior_command sampleOps
      { timestamp := 0
        behavior := .MoveTowards { x := 3, y := 4, z := 0 } 0.5
        priority := 5 } =
      [.log_motor "Executing MoveTowards"
        (calculate_motor_command sampleOps { x := 3, y := 4, z := 0 } 0.5)] := by
  exact ⟨by simp [computed_motor_command], rfl⟩

/-- Claim C5 (amended): translating `MoveTowards` computes the claimed
differential-drive speeds and `AvoidObstacle` the claimed pair, while
`EmergencyStop`, `Idle` and `AdjustStance` construct no motor command; and
every emission of `handle_behavior_command` is a log record — the computed
`MotorCommand`s appear only inside Debug logs and are never sent to any
motor driver. -/
theorem claim_C5_amended (ops : FloatOps) (target direction : Vec3)
    (speed : ℚ) (config : StanceConfig) (cmd : BehaviorCommand) :
    computed_motor_command ops (.MoveTowards target speed) =
      some { left_speed :=
               speed * (1 - 0.5 * ops.sin (ops.atan2 target.y target.x))
             right_speed :=
               speed * (1 + 0.5 * ops.sin (ops.atan2 target.y target.x)) } ∧
    computed_motor_command ops (.AvoidObstacle direction) =
      some { left_speed := 0.5 * direction.y
             right_speed := -(0.5 * direction.y) } ∧
    computed_motor_command ops .EmergencyStop = none ∧
    computed_motor_command ops .Idle = none ∧
    computed_motor_command ops (.AdjustStance config) = none ∧
    (handle_behavior_command ops cmd).all HWEffect.isLog = true := by
  refine ⟨?_, ?_, rfl, rfl, rfl, ?_⟩
  · simp only [computed_motor_command, calculate_motor_command,
      Option.some.injEq, MotorCommand.mk.injEq]
    constructor <;> ring
  · simp only [computed_motor_command, Option.some.injEq,
      MotorCommand.mk.injEq]
    constructor <;> ring
  · obtain ⟨ts, b, pr⟩ := cmd
    cases b <;> rfl

/-- Claim C6: the n-th `MissionCommand` yields a mission with id `n`
(counter from 1, strictly increasing), priority 5 and all tasks `Pending`;
`Patrol` and `FollowPath` yield one `Navigate` task per waypoint,
`GoToWaypoint` exactly one, `ReturnHome` one `Navigate` to
`(37.7749, -122.4194)` with tolerance `1.0`; and every `Navigate` task is
emitted as one goal packing `(lat, lon, 0)` into the position, with
identity orientation and `ReachPosition` type. -/
theorem claim_C6 (counter : Nat) (cmd : MissionCommand)
    (commands : List MissionCommand) (task_id : Nat) (descr : String)
    (waypoint : Waypoint) (status : TaskStatus) :
    (create_mission_from_command counter cmd).1 = counter + 1 ∧
    (create_mission_from_command counter cmd).2.id = counter + 1 ∧
    (create_mission_from_command counter cmd).2.priority = 5 ∧
    ((create_mission_from_command counter cmd).2.tasks.all
      (fun t => t.status = TaskStatus.Pending)) = true ∧
    (create_mission_from_command counter cmd).2.tasks.map Task.task_type =
      mission_task_types_spec cmd ∧
    ((process_mission_commands 0 commands).2.map Mission.id) =
      List.range' 1 commands.length ∧
    task_to_goal
      { id := task_id, description := descr,
        task_type := .Navigate waypoint, status := status } =
      navigate_goal_spec waypoint ∧
    execute_mission (create_mission_from_command counter cmd).2 =
      (create_mission_from_command counter cmd).2.tasks.map task_to_goal := by
  refine ⟨by cases cmd <;> rfl, by cases cmd <;> rfl, by cases cmd <;> rfl,
    ?_, ?_, process_mission_commands_ids commands 0, rfl, rfl⟩
  · cases cmd <;>
      simp [create_mission_from_command, List.all_map, Function.comp,
        List.all_eq_true] <;>
      (intro x i wp hmem hx; subst hx; rfl)
  · cases cmd <;>
      simp [create_mission_from_command, mission_task_types_spec,
        List.map_map, List.enum] <;>
      exact enumFrom_map_snd_comp TaskType.Navigate 0 _

/-- Claim C7: for every sensor frame the produced environment state is
exactly the claimed one — one `Static` obstacle of size `(0.3, 0.3, 0.5)`
at `(d·cos(i·π/2), d·sin(i·π/2), 0)` per reading `d < 1.5` at index `i`,
terrain `Rough`/`Steep`/`Flat` by the claimed accelerometer and
quaternion-x tests, and confidence always `0.8`. -/
theorem claim_C7 (ops : FloatOps) (sensor_data : SensorData) :
    process_sensor_data ops sensor_data = environment_spec ops sensor_data := by
  unfold process_sensor_data environment_spec
  rw [obstacle_filterMap_eq]
  rfl

/-- Claim C8: records under the configured minimum level (default `Debug`,
under which nothing is filtered) are dropped before any sink work;
otherwise the record's sink work is the live-stream work followed by the
durable-file work (stream delivery before file write), and each sink's
per-module channel is created lazily exactly on first use, on topic
`roverOS/<module>`. -/
theorem claim_C8 (st : LoggerState) (entry : LogEntry) :
    logger_initial_min_level = .Debug ∧
    (∀ lvl : LogLevel, LogLevel.Debug.toNat ≤ lvl.toNat) ∧
    (entry.level.toNat < st.min_level.toNat → logger_step st entry = (st, [])) ∧
    (st.min_level.toNat ≤ entry.level.toNat →
      (logger_step st entry).2 = (ws_sink st entry).1 ++ (mcap_sink st entry).1) ∧
    ((ws_sink st entry).1.all LogSinkEffect.isWs = true) ∧
    ((mcap_sink st entry).1.all LogSinkEffect.isMcap = true) ∧
    (st.ws_enabled = true → entry.module ∉ st.ws_channels →
      (ws_sink st entry).1 =
        [.ws_channel_create ("roverOS/" ++ entry.module),
         .ws_publish entry.module]) ∧
    (st.ws_enabled = true → entry.module ∈ st.ws_channels →
      (ws_sink st entry).1 = [.ws_publish entry.module]) ∧
    (st.file_enabled = true → entry.module ∉ st.mcap_channels →
      (mcap_sink st entry).1 =
        [.mcap_channel_create ("roverOS/" ++ entry.module),
         .mcap_write entry.module]) ∧
    (st.file_enabled = true → entry.module ∈ st.mcap_channels →
      (mcap_sink st entry).1 = [.mcap_write entry.module]) := by
  refine ⟨rfl, fun lvl => by cases lvl <;> simp [LogLevel.toNat],
    ?_, ?_, ?_, ?_, ?_, ?_, ?_, ?_⟩
  · intro h
    unfold logger_step
    rw [if_neg (by omega)]
  · intro h
    unfold logger_step log_entry
    rw [if_pos h]
  · unfold ws_sink
    by_cases hw : st.ws_enabled = true <;>
      by_cases hc : entry.module ∈ st.ws_channels <;>
        simp [hw, hc, LogSinkEffect.isWs]
  · unfold mcap_sink
    by_cases hf : st.file_enabled = true <;>
      by_cases hc : entry.module ∈ st.mcap_channels <;>
        simp [hf, hc, LogSinkEffect.isMcap]
  · intro hw hc
    simp [ws_sink, hw, hc]
  · intro hw hc
    simp [ws_sink, hw, hc]
  · intro hf hc
    simp [mcap_sink, hf, hc]
  · intro hf hc
    simp [mcap_sink, hf, hc]

/-- Witness for claim C8: a concrete `Info`-filtered logger drops a `Debug`
record untouched, and on a `Warn` record from an uncached module the
live-stream sink lazily creates the channel on topic `roverOS/<module>`
before publishing. -/
theorem claim_C8_witness :
    logger_step
        { min_level := .Info, ws_enabled := true, file_enabled := true,
          ws_channels := ["A"], mcap_channels := [], message_count := 0 }
        { timestamp := 0, level := .Debug, module := "B", message := "m" } =
      ({ min_level := .Info, ws_enabled := true, file_enabled := true,
         ws_channels := ["A"], mcap_channels := [], message_count := 0 },
       []) ∧
    (ws_sink
        { min_level := .Info, ws_enabled := true, file_enabled := true,
          ws_channels := ["A"], mcap_channels := [], message_count := 0 }
        { timestamp := 0, level := .Warn, module := "B", message := "m" }).1 =
      [.ws_channel_create ("roverOS/" ++ "B"), .ws_publish "B"] := by
  constructor
  · exact (claim_C8
      { min_level := .Info, ws_enabled := true, file_enabled := true,
        ws_channels := ["A"], mcap_channels := [], message_count := 0 }
      { timestamp := 0, level := .Debug, module := "B", message := "m" }
      ).2.2.1 (by decide)
  · exact (claim_C8
      { min_level := .Info, ws_enabled := true, file_enabled := true,
        ws_channels := ["A"], mcap_channels := [], message_count := 0 }
      { timestamp := 0, level := .Warn, module := "B", message := "m" }
      ).2.2.2.2.2.2.1 rfl (by decide)

/-- Claim C10: `execute_path` is total on empty paths — an empty waypoint
list produces no behavior command (the first-waypoint access is a total
`Option` lookup), and a non-empty path produces exactly one `MoveTowards`
toward the first waypoint's position at speed `0.5` and priority `5`. -/
theorem claim_C10 (now : Nat) (path : Path) (path_origin : String) :
    behavior_commands (execute_path now path path_origin) =
      match path.waypoints with
      | [] => []
      | first_waypoint :: _ =>
        [{ timestamp := now
           behavior := .MoveTowards first_waypoint.position 0.5
           priority := 5 }] := by
  obtain ⟨wps, td, et⟩ := path
  cases wps <;> rfl

end Rover
